import Mathlib

/-!
Shallow embedding of the course-progress and access-control engine of
`app.py` (CourseConnect backend): the data-model rows, the lesson access
gate, enrollment, lesson completion with progress recomputation, and the
notification fan-out, together with proofs about the claims of the
specification.  Machine floats of the source are modelled as rationals;
timestamps as naturals; each database table as a list of row structures in
insertion (primary-key) order.  A session-level model captures the
commit/rollback behavior of the notification helper.
-/

namespace CourseConnect


/-- A row of the `user` table (only the columns the engine reads). -/
structure User where
  id : Nat
  isAdmin : Bool
  deriving Repr, DecidableEq

/-- A row of the `course` table (columns the engine reads). -/
structure Course where
  id : Nat
  instructorId : Nat
  isPrivate : Bool
  deriving Repr, DecidableEq

/-- A row of the `lesson` table (columns the engine reads). -/
structure Lesson where
  id : Nat
  courseId : Nat
  isFree : Bool
  orderIndex : Nat
  content : String
  videoUrl : String
  durationMinutes : Nat
  deriving Repr, DecidableEq

/-- A row of the `enrollment` table. -/
structure Enrollment where
  userId : Nat
  courseId : Nat
  progressPercentage : ℚ
  completedAt : Option Nat
  deriving Repr, DecidableEq

/-- A row of the `lesson_progress` table. -/
structure LessonProgress where
  userId : Nat
  lessonId : Nat
  deriving Repr, DecidableEq

/-- A row of the `notification` table (columns the claims read). -/
structure Notification where
  ntype : String
  recipientId : Nat
  senderId : Option Nat
  postId : Option Nat
  courseId : Option Nat
  deriving Repr, DecidableEq

/-- The database: one list per table, in insertion order. -/
structure DB where
  users : List User
  courses : List Course
  lessons : List Lesson
  enrollments : List Enrollment
  progresses : List LessonProgress
  notifs : List Notification
  deriving Repr, DecidableEq

/-- Model of `User.query.get(uid)` / the `instructor` relationship lookup. -/
def findUser (db : DB) (uid : Nat) : Option User :=
  db.users.find? (fun u => u.id == uid)

/-- Model of `Course.query.get(cid)` / the `lesson.course` relationship lookup. -/
def findCourse (db : DB) (cid : Nat) : Option Course :=
  db.courses.find? (fun c => c.id == cid)

/-- Model of `Lesson.query.get(lid)`. -/
def findLesson (db : DB) (lid : Nat) : Option Lesson :=
  db.lessons.find? (fun l => l.id == lid)

/-- The (user_id, course_id) filter of the enrollment queries. -/
def enrKey (uid cid : Nat) (e : Enrollment) : Bool :=
  e.userId == uid && e.courseId == cid

/-- Model of `Enrollment.query.filter_by(user_id=uid, course_id=cid).first()`. -/
def findEnrollment (db : DB) (uid cid : Nat) : Option Enrollment :=
  db.enrollments.find? (enrKey uid cid)

/-- The (user_id, lesson_id) filter of the lesson-progress queries. -/
def progKey (uid lid : Nat) (p : LessonProgress) : Bool :=
  p.userId == uid && p.lessonId == lid

/-- Model of `LessonProgress.query.filter_by(user_id=uid, lesson_id=lid).first()`. -/
def findProgress (db : DB) (uid lid : Nat) : Option LessonProgress :=
  db.progresses.find? (progKey uid lid)

/-- Model of `Lesson.query.filter_by(course_id=cid).count()` (app.py line 1140). -/
def lessonCountOfCourse (db : DB) (cid : Nat) : Nat :=
  (db.lessons.filter (fun l => l.courseId == cid)).length

/-- Model of `LessonProgress.query.join(Lesson).filter(LessonProgress.user_id == uid,
Lesson.course_id == cid).count()` (app.py lines 1141-1144): the SQL inner
join counts matching (progress, lesson) pairs. -/
def progressJoinCount (db : DB) (uid cid : Nat) : Nat :=
  (db.progresses.flatMap (fun p =>
    if p.userId == uid then
      db.lessons.filter (fun l => l.id == p.lessonId && l.courseId == cid)
    else [])).length

/-- Python truthiness of `current_user and current_user.is_admin`. -/
def userIsAdmin (user? : Option User) : Bool :=
  match user? with
  | none => false
  | some u => u.isAdmin

/-- The `is_enrolled` computation shared by `get_course_lessons` (lines
1011-1016) and `get_lesson` (lines 1060-1065): false for an anonymous
viewer, otherwise whether an Enrollment row exists. -/
def isEnrolledQ (db : DB) (user? : Option User) (cid : Nat) : Bool :=
  match user? with
  | none => false
  | some u => (findEnrollment db u.id cid).isSome

/-- The access decision of app.py lines 1031 and 1068:
`lesson.is_free or is_enrolled or (current_user and current_user.is_admin)`. -/
def can_access (db : DB) (user? : Option User) (lesson : Lesson) : Bool :=
  lesson.isFree || isEnrolledQ db user? lesson.courseId || userIsAdmin user?

/-- Outcome of `GET /api/lessons/<id>` (app.py lines 1051-1100). -/
inductive LessonView where
  | notFound
  | serverError
  | accessDenied
  | ok (content : String) (videoUrl : String) (isCompleted : Bool)
  deriving Repr, DecidableEq

/-- Handler `get_lesson` (app.py lines 1051-1100): resolve the lesson and its
course, run the access gate, and serve the full content on success.  A
dangling `lesson.course` reference would raise inside the handler and be
reported as a 500, modelled as `serverError`. -/
def get_lesson (db : DB) (user? : Option User) (lid : Nat) : LessonView :=
  match findLesson db lid with
  | none => .notFound
  | some lesson =>
    match findCourse db lesson.courseId with
    | none => .serverError
    | some _course =>
      if can_access db user? lesson then
        .ok lesson.content lesson.videoUrl
          (match user? with
           | none => false
           | some u => (findProgress db u.id lid).isSome)
      else .accessDenied

/-- One serialized element of the `GET /api/courses/<id>/lessons` response
(app.py lines 1033-1044). -/
structure LessonEntry where
  id : Nat
  content : Option String
  videoUrl : Option String
  isFree : Bool
  isCompleted : Bool
  isAccessible : Bool
  deriving Repr, DecidableEq

/-- Serialization of one lesson in `get_course_lessons` (app.py lines
1021-1044): content and video are present exactly when the row is
accessible; withheld (null) otherwise. -/
def serializeLesson (db : DB) (user? : Option User) (isEnr : Bool)
    (lesson : Lesson) : LessonEntry :=
  let isAccessible := lesson.isFree || isEnr || userIsAdmin user?
  { id := lesson.id
    content := if isAccessible then some lesson.content else none
    videoUrl := if isAccessible then some lesson.videoUrl else none
    isFree := lesson.isFree
    isCompleted :=
      match user? with
      | none => false
      | some u => (findProgress db u.id lesson.id).isSome
    isAccessible := isAccessible }

/-- Insertion sort step for the `order_by(Lesson.order_index)` clause. -/
def insertByOrder (l : Lesson) : List Lesson → List Lesson
  | [] => [l]
  | x :: xs => if l.orderIndex ≤ x.orderIndex then l :: x :: xs
               else x :: insertByOrder l xs

/-- Model of `order_by(Lesson.order_index)` (app.py line 1018). -/
def sortLessons : List Lesson → List Lesson
  | [] => []
  | x :: xs => insertByOrder x (sortLessons xs)

/-- Handler `get_course_lessons` (app.py lines 1003-1046): none when the course id
resolves to no row (404), otherwise the serialized lesson list. -/
def get_course_lessons (db : DB) (user? : Option User) (cid : Nat) :
    Option (List LessonEntry) :=
  match findCourse db cid with
  | none => none
  | some _course =>
    let isEnr := isEnrolledQ db user? cid
    some ((sortLessons (db.lessons.filter (fun l => l.courseId == cid))).map
      (serializeLesson db user? isEnr))

/-- Outcome of `GET /api/courses/<id>` (app.py lines 822-872). -/
inductive CourseView where
  | notFound
  | denied
  | ok (isEnrolled : Bool) (progressPercentage : ℚ)
  deriving Repr, DecidableEq

/-- Handler `get_course` (app.py lines 822-872): a private course is refused (403)
unless the viewer is an authenticated admin; otherwise enrollment state and
the stored progress percentage are served. -/
def get_course (db : DB) (user? : Option User) (cid : Nat) : CourseView :=
  match findCourse db cid with
  | none => .notFound
  | some course =>
    if course.isPrivate && !(userIsAdmin user?) then .denied
    else
      match user? with
      | none => .ok false 0
      | some u =>
        match findEnrollment db u.id cid with
        | some e => .ok true e.progressPercentage
        | none => .ok false 0

/-- The `course_enrollment` notification of app.py lines 981-988. -/
def enrollmentNotice (instrId uid cid : Nat) : Notification :=
  { ntype := "course_enrollment", recipientId := instrId,
    senderId := some uid, postId := none, courseId := some cid }

/-- Outcome of `POST /api/courses/<id>/enroll` (app.py lines 952-997). -/
inductive EnrollResult where
  | courseNotFound
  | alreadyEnrolled
  | created
  deriving Repr, DecidableEq

/-- Handler `enroll_course` (app.py lines 952-997): reject a second enrollment for
the same (user, course); otherwise insert a row with percentage 0 and no
completion timestamp and commit, then notify the instructor unless the
instructor row is missing or the enrollee is the instructor. -/
def enroll_course (db : DB) (u : User) (cid : Nat) : EnrollResult × DB :=
  match findCourse db cid with
  | none => (.courseNotFound, db)
  | some course =>
    match findEnrollment db u.id cid with
    | some _ => (.alreadyEnrolled, db)
    | none =>
      let db1 : DB := { db with enrollments := db.enrollments ++
        [{ userId := u.id, courseId := cid, progressPercentage := 0,
           completedAt := none }] }
      let db2 : DB :=
        match findUser db1 course.instructorId with
        | some instr =>
          if instr.id ≠ u.id then
            { db1 with notifs := db1.notifs ++ [enrollmentNotice instr.id u.id cid] }
          else db1
        | none => db1
      (.created, db2)

/-- The system `course_completed` notification of app.py lines 1154-1159:
no sender and no course reference are attached. -/
def sysCompletionNotice (uid : Nat) : Notification :=
  { ntype := "course_completed", recipientId := uid, senderId := none,
    postId := none, courseId := none }

/-- The instructor-facing `course_completed` notification of app.py lines
1162-1170. -/
def instrCompletionNotice (instrId uid cid : Nat) : Notification :=
  { ntype := "course_completed", recipientId := instrId, senderId := some uid,
    postId := none, courseId := some cid }

/-- The instructor-facing `lesson_completed` notification of app.py lines
1173-1181. -/
def lessonDoneNotice (instrId uid cid : Nat) : Notification :=
  { ntype := "lesson_completed", recipientId := instrId, senderId := some uid,
    postId := none, courseId := some cid }

/-- Outcome of `POST /api/lessons/<id>/complete` (app.py lines 1102-1193). -/
inductive CompleteResult where
  | lessonNotFound
  | serverError
  | notEnrolled
  | alreadyCompleted
  | ok (progressPercentage : ℚ) (courseCompleted : Bool)
  deriving Repr, DecidableEq

/-- Update the first enrollment row matching (uid, cid), mirroring the ORM
mutation of the object returned by `.first()`. -/
def updateEnrollmentRow (f : Enrollment → Enrollment) (uid cid : Nat) :
    List Enrollment → List Enrollment
  | [] => []
  | e :: es =>
    if enrKey uid cid e then f e :: es
    else e :: updateEnrollmentRow f uid cid es

/-- Handler `complete_lesson` (app.py lines 1102-1193) with every notification
insert succeeding.  Faithful to execution order: the new LessonProgress row
is added to the session first (line 1137) and the session autoflush makes
both count queries on lines 1140-1144 see it, after which the source adds
one more (line 1144), so the inserted row contributes twice to
`completed_lessons`.  The percentage is the raw float quotient, modelled
exactly in `ℚ`; the `total_lessons = 0` guard of line 1146 is kept although
the completed lesson itself always makes the count positive. -/
def complete_lesson (db : DB) (u : User) (lid : Nat) (now : Nat) :
    CompleteResult × DB :=
  match findLesson db lid with
  | none => (.lessonNotFound, db)
  | some lesson =>
    match findCourse db lesson.courseId with
    | none => (.serverError, db)
    | some course =>
      match findEnrollment db u.id course.id with
      | none => (.notEnrolled, db)
      | some enrollment =>
        match findProgress db u.id lid with
        | some _ => (.alreadyCompleted, db)
        | none =>
          let db1 : DB := { db with progresses := db.progresses ++
            [{ userId := u.id, lessonId := lid }] }
          let totalLessons := lessonCountOfCourse db1 course.id
          let completedLessons := progressJoinCount db1 u.id course.id + 1
          let pct : ℚ :=
            if 0 < totalLessons then
              ((completedLessons : ℚ) / (totalLessons : ℚ)) * 100
            else 0
          if 100 ≤ pct ∧ enrollment.completedAt = none then
            let enr2 := updateEnrollmentRow
              (fun e => { e with progressPercentage := pct, completedAt := some now })
              u.id course.id db1.enrollments
            let db2 : DB := { db1 with enrollments := enr2 }
            let db3 : DB := { db2 with notifs := db2.notifs ++ [sysCompletionNotice u.id] }
            let db4 : DB :=
              match findUser db3 course.instructorId with
              | some instr =>
                if instr.id ≠ u.id then
                  { db3 with notifs := db3.notifs ++ [instrCompletionNotice instr.id u.id course.id] }
                else db3
              | none => db3
            (.ok pct (decide (100 ≤ pct)), db4)
          else
            let enr2 := updateEnrollmentRow
              (fun e => { e with progressPercentage := pct })
              u.id course.id db1.enrollments
            let db2 : DB := { db1 with enrollments := enr2 }
            let db3 : DB :=
              match findUser db2 course.instructorId with
              | some instr =>
                if instr.id ≠ u.id then
                  { db2 with notifs := db2.notifs ++ [lessonDoneNotice instr.id u.id course.id] }
                else db2
              | none => db2
            (.ok pct (decide (100 ≤ pct)), db3)

/-- The `new_post` notification of app.py lines 533-540. -/
def newPostNotice (recipId uid pid : Nat) : Notification :=
  { ntype := "new_post", recipientId := recipId, senderId := some uid,
    postId := some pid, courseId := none }

/-- The broadcast fan-out of `create_post` (app.py lines 530-540): the
recipient query is capped by `.limit(10)` and excludes the author.  Only
the notification fan-out is modelled; the post row lives in a table no
claim reads. -/
def create_post (db : DB) (u : User) (pid : Nat) : DB :=
  let topUsers := (db.users.filter (fun v => v.id != u.id)).take 10
  { db with notifs := db.notifs ++ topUsers.map (fun v => newPostNotice v.id u.id pid) }

/-- The `new_course` notification of app.py lines 908-915. -/
def newCourseNotice (recipId uid cid : Nat) : Notification :=
  { ntype := "new_course", recipientId := recipId, senderId := some uid,
    postId := none, courseId := some cid }

/-- Handler `create_course` (app.py lines 874-928), called by an admin: inserts the
course with the actor as instructor, then notifies every other user — the
recipient query of line 906 has no limit. -/
def create_course (db : DB) (u : User) (cid : Nat) (isPriv : Bool) : DB :=
  let course : Course := { id := cid, instructorId := u.id, isPrivate := isPriv }
  let db1 : DB := { db with courses := db.courses ++ [course] }
  let recipients := db1.users.filter (fun v => v.id != u.id)
  { db1 with notifs :=
      db1.notifs ++ recipients.map (fun v => newCourseNotice v.id u.id cid) }

/-- The guard conditions of `complete_lesson` lines 1109-1128 as one Bool:
true exactly when the call takes the success path (lesson and course
resolve, the user is enrolled, and the lesson is not yet completed). -/
def successfulCall (db : DB) (u : User) (lid : Nat) : Bool :=
  match findLesson db lid with
  | none => false
  | some lesson =>
    match findCourse db lesson.courseId with
    | none => false
    | some course =>
      (findEnrollment db u.id course.id).isSome && (findProgress db u.id lid).isNone

/-- The guard of app.py line 1150, recomputed from the pre-call state:
true exactly when a successful call enters the completion branch, i.e. the
recomputed percentage is at least 100 and `completed_at` is still null. -/
def completionTriggered (db : DB) (u : User) (lid : Nat) : Bool :=
  match findLesson db lid with
  | none => false
  | some lesson =>
    match findCourse db lesson.courseId with
    | none => false
    | some course =>
      match findEnrollment db u.id course.id with
      | none => false
      | some enrollment =>
        match findProgress db u.id lid with
        | some _ => false
        | none =>
          let db1 : DB := { db with progresses := db.progresses ++
            [{ userId := u.id, lessonId := lid }] }
          let totalLessons := lessonCountOfCourse db1 course.id
          let completedLessons := progressJoinCount db1 u.id course.id + 1
          let pct : ℚ :=
            if 0 < totalLessons then
              ((completedLessons : ℚ) / (totalLessons : ℚ)) * 100
            else 0
          decide (100 ≤ pct ∧ enrollment.completedAt = none)

/-- The notifications a successful `complete_lesson` call appends, derived
from the pre-call state: on the completion branch a system
`course_completed` to the student plus, when the instructor row exists and
is a different user, a `course_completed` to the instructor; otherwise a
single `lesson_completed` to such an instructor. -/
def successNotifs (db : DB) (u : User) (lid : Nat) : List Notification :=
  match findLesson db lid with
  | none => []
  | some lesson =>
    match findCourse db lesson.courseId with
    | none => []
    | some course =>
      let instrOther : Bool :=
        match findUser db course.instructorId with
        | some instr => instr.id != u.id
        | none => false
      if completionTriggered db u lid then
        sysCompletionNotice u.id ::
          (if instrOther then [instrCompletionNotice course.instructorId u.id course.id] else [])
      else
        if instrOther then [lessonDoneNotice course.instructorId u.id course.id] else []

/-- Mirror of the percentage computed on the success path of
complete_lesson, recomputed from the pre-call state. -/
def newPct (db : DB) (u : User) (lid : Nat) : ℚ :=
  match findLesson db lid with
  | none => 0
  | some lesson =>
    match findCourse db lesson.courseId with
    | none => 0
    | some course =>
      let db1 : DB := { db with progresses := db.progresses ++
        [{ userId := u.id, lessonId := lid }] }
      let totalLessons := lessonCountOfCourse db1 course.id
      let completedLessons := progressJoinCount db1 u.id course.id + 1
      if 0 < totalLessons then
        ((completedLessons : ℚ) / (totalLessons : ℚ)) * 100
      else 0

/-- Mirror of the enrollment-table update performed by complete_lesson. -/
def updatedEnrollments (db : DB) (u : User) (lid : Nat) (now : Nat) : List Enrollment :=
  match findLesson db lid with
  | none => db.enrollments
  | some lesson =>
    match findCourse db lesson.courseId with
    | none => db.enrollments
    | some course =>
      match findEnrollment db u.id course.id with
      | none => db.enrollments
      | some _ =>
        match findProgress db u.id lid with
        | some _ => db.enrollments
        | none =>
          if completionTriggered db u lid then
            updateEnrollmentRow
              (fun e => { e with progressPercentage := newPct db u lid,
                                 completedAt := some now })
              u.id course.id db.enrollments
          else
            updateEnrollmentRow
              (fun e => { e with progressPercentage := newPct db u lid })
              u.id course.id db.enrollments

/-- The course of a lesson id, when the lesson exists. -/
def lessonCourseOf (db : DB) (lid : Nat) : Option Nat :=
  (findLesson db lid).map (fun l => l.courseId)

/-- The `completed_at` column of the first enrollment row for (uid, cid):
none when no such row exists. -/
def completedAtOf (db : DB) (uid cid : Nat) : Option (Option Nat) :=
  (findEnrollment db uid cid).map (fun e => e.completedAt)

/-- Whether the enrollment for (uid, cid) exists and carries a completion
timestamp. -/
def completedAtSet (db : DB) (uid cid : Nat) : Bool :=
  match findEnrollment db uid cid with
  | some e => e.completedAt.isSome
  | none => false

/-- At most one LessonProgress row per (user, lesson). -/
def progressUnique (db : DB) : Prop :=
  ∀ uid lid : Nat, (db.progresses.filter (progKey uid lid)).length ≤ 1

/-- A state-changing request of the progress subsystem. -/
inductive Op where
  | completeOp (u : User) (lid : Nat) (now : Nat)
  | enrollOp (u : User) (cid : Nat)
  deriving Repr, DecidableEq

/-- The database after one request (the HTTP result is discarded). -/
def applyOp (db : DB) : Op → DB
  | .completeOp u lid now => (complete_lesson db u lid now).2
  | .enrollOp u cid => (enroll_course db u cid).2

/-- Whether one request turns `completed_at` for (uid, cid) from unset to
set. -/
def opFlips (db : DB) (op : Op) (uid cid : Nat) : Bool :=
  !completedAtSet db uid cid && completedAtSet (applyOp db op) uid cid

/-- How many requests of a sequence turn `completed_at` for (uid, cid)
from unset to set. -/
def flipCount (db : DB) (uid cid : Nat) : List Op → Nat
  | [] => 0
  | op :: ops =>
    (if opFlips db op uid cid then 1 else 0) + flipCount (applyOp db op) uid cid ops

/-- The SQLAlchemy session: the committed database plus the view including
uncommitted changes.  `commit` publishes the pending view; `rollback`
discards it. -/
structure Sess where
  committed : DB
  pending : DB
  deriving Repr, DecidableEq

/-- Model of `db.session.commit()`. -/
def sessCommit (s : Sess) : Sess :=
  { committed := s.pending, pending := s.pending }

/-- Model of `db.session.rollback()`. -/
def sessRollback (s : Sess) : Sess :=
  { committed := s.committed, pending := s.committed }

/-- Helper `create_notification` (app.py lines 236-255) at session level: add the
row and commit; on a storage failure the handler catches the exception,
rolls the whole session back — discarding every uncommitted change, not
just the notification — and returns False, which every caller ignores. -/
def create_notification_sess (ok : Bool) (n : Notification) (s : Sess) : Sess :=
  if ok then
    sessCommit { s with pending := { s.pending with notifs := s.pending.notifs ++ [n] } }
  else sessRollback s

/-- Handler `enroll_course` at session level (app.py lines 952-997): the enrollment
row is committed on line 977 before the instructor notification is
attempted, so a notification failure (ok = false) cannot undo it. -/
def enroll_course_sess (s : Sess) (u : User) (cid : Nat) (ok : Bool) :
    EnrollResult × Sess :=
  let db := s.pending
  match findCourse db cid with
  | none => (.courseNotFound, s)
  | some course =>
    match findEnrollment db u.id cid with
    | some _ => (.alreadyEnrolled, s)
    | none =>
      let p1 : DB := { db with enrollments := db.enrollments ++
        [{ userId := u.id, courseId := cid, progressPercentage := 0,
           completedAt := none }] }
      let s1 := sessCommit { s with pending := p1 }
      let s2 :=
        match findUser s1.pending course.instructorId with
        | some instr =>
          if instr.id ≠ u.id then
            create_notification_sess ok (enrollmentNotice instr.id u.id cid) s1
          else s1
        | none => s1
      (.created, s2)

/-- Handler `complete_lesson` at session level (app.py lines 1102-1193): the
progress insert and the enrollment update stay uncommitted while the
notifications are attempted, and the handler only commits at line 1183.
Each Bool in `oks` is the outcome of the next `create_notification` call
(exhaustion meaning success); a failing call rolls the session back,
silently discarding the still-pending primary writes. -/
def complete_lesson_sess (s : Sess) (u : User) (lid : Nat) (now : Nat)
    (oks : List Bool) : CompleteResult × Sess :=
  let db := s.pending
  match findLesson db lid with
  | none => (.lessonNotFound, s)
  | some lesson =>
    match findCourse db lesson.courseId with
    | none => (.serverError, s)
    | some course =>
      match findEnrollment db u.id course.id with
      | none => (.notEnrolled, s)
      | some enrollment =>
        match findProgress db u.id lid with
        | some _ => (.alreadyCompleted, s)
        | none =>
          let p1 : DB := { db with progresses := db.progresses ++
            [{ userId := u.id, lessonId := lid }] }
          let totalLessons := lessonCountOfCourse p1 course.id
          let completedLessons := progressJoinCount p1 u.id course.id + 1
          let pct : ℚ :=
            if 0 < totalLessons then
              ((completedLessons : ℚ) / (totalLessons : ℚ)) * 100
            else 0
          if 100 ≤ pct ∧ enrollment.completedAt = none then
            let enr2 := updateEnrollmentRow
              (fun e => { e with progressPercentage := pct, completedAt := some now })
              u.id course.id p1.enrollments
            let s2 : Sess := { s with pending := { p1 with enrollments := enr2 } }
            let s3 := create_notification_sess (oks.headD true) (sysCompletionNotice u.id) s2
            let s4 :=
              match findUser s3.pending course.instructorId with
              | some instr =>
                if instr.id ≠ u.id then
                  create_notification_sess ((oks.drop 1).headD true)
                    (instrCompletionNotice instr.id u.id course.id) s3
                else s3
              | none => s3
            (.ok pct (decide (100 ≤ pct)), sessCommit s4)
          else
            let enr2 := updateEnrollmentRow
              (fun e => { e with progressPercentage := pct })
              u.id course.id p1.enrollments
            let s2 : Sess := { s with pending := { p1 with enrollments := enr2 } }
            let s3 :=
              match findUser s2.pending course.instructorId with
              | some instr =>
                if instr.id ≠ u.id then
                  create_notification_sess (oks.headD true)
                    (lessonDoneNotice instr.id u.id course.id) s2
                else s2
              | none => s2
            (.ok pct (decide (100 ≤ pct)), sessCommit s3)

/-- Lesson-row builder for concrete test databases. -/
def mkLesson (lid cid oi : Nat) (free : Bool) : Lesson :=
  { id := lid, courseId := cid, isFree := free, orderIndex := oi,
    content := "contenuto", videoUrl := "video", durationMinutes := 10 }

def c1u : User := { id := 1, isAdmin := false }

def c1db : DB :=
  { users := [{ id := 1, isAdmin := false }, { id := 2, isAdmin := true }]
    courses := [{ id := 10, instructorId := 2, isPrivate := false }]
    lessons := [mkLesson 100 10 1 true, mkLesson 101 10 2 false,
                mkLesson 102 10 3 false, mkLesson 103 10 4 false]
    enrollments := [{ userId := 1, courseId := 10, progressPercentage := 0,
                      completedAt := none }]
    progresses := []
    notifs := [] }

def c2instr : User := { id := 7, isAdmin := false }

def c2lesson : Lesson := mkLesson 200 20 1 false

def c2db : DB :=
  { users := [{ id := 7, isAdmin := false }]
    courses := [{ id := 20, instructorId := 7, isPrivate := false }]
    lessons := [c2lesson]
    enrollments := []
    progresses := []
    notifs := [] }

def c3u : User := { id := 1, isAdmin := false }

def c3db : DB :=
  { users := [{ id := 1, isAdmin := false }, { id := 2, isAdmin := true }]
    courses := [{ id := 10, instructorId := 2, isPrivate := false }]
    lessons := [mkLesson 100 10 1 false]
    enrollments := [{ userId := 1, courseId := 10, progressPercentage := 0,
                      completedAt := none }]
    progresses := []
    notifs := [] }

def c4actor : User := { id := 0, isAdmin := true }

def c4db : DB :=
  { users := (List.range 16).map (fun i => { id := i, isAdmin := i == 0 })
    courses := []
    lessons := []
    enrollments := []
    progresses := []
    notifs := [] }

def c6u : User := { id := 1, isAdmin := false }

def c6db : DB :=
  { users := [{ id := 1, isAdmin := false }, { id := 2, isAdmin := true }]
    courses := [{ id := 10, instructorId := 2, isPrivate := false }]
    lessons := [mkLesson 100 10 1 false]
    enrollments := [{ userId := 1, courseId := 10, progressPercentage := 0,
                      completedAt := none }]
    progresses := []
    notifs := [] }

def c8u : User := { id := 1, isAdmin := false }

def c8db : DB :=
  { users := [{ id := 1, isAdmin := false }, { id := 2, isAdmin := true }]
    courses := [{ id := 10, instructorId := 2, isPrivate := false }]
    lessons := [mkLesson 100 10 1 true, mkLesson 101 10 2 false,
                mkLesson 102 10 3 false, mkLesson 103 10 4 false]
    enrollments := [{ userId := 1, courseId := 10, progressPercentage := 0,
                      completedAt := none }]
    progresses := []
    notifs := [] }

def e8u : User := { id := 1, isAdmin := false }

def e8db : DB :=
  { users := [{ id := 1, isAdmin := false }, { id := 2, isAdmin := true }]
    courses := [{ id := 10, instructorId := 2, isPrivate := false }]
    lessons := []
    enrollments := []
    progresses := []
    notifs := [] }

def c9db : DB :=
  { users := [{ id := 1, isAdmin := false }]
    courses := [{ id := 40, instructorId := 1, isPrivate := false }]
    lessons := [mkLesson 400 40 1 true]
    enrollments := []
    progresses := []
    notifs := [] }

def c10u : User := { id := 1, isAdmin := false }

def c10db : DB :=
  { users := [{ id := 1, isAdmin := false }, { id := 2, isAdmin := true }]
    courses := [{ id := 30, instructorId := 2, isPrivate := true }]
    lessons := [mkLesson 300 30 1 false]
    enrollments := []
    progresses := []
    notifs := [] }

def w5u2 : User := { id := 2, isAdmin := false }

def w5db : DB :=
  { users := [{ id := 1, isAdmin := false }, { id := 2, isAdmin := false }]
    courses := [{ id := 10, instructorId := 1, isPrivate := false }]
    lessons := []
    enrollments := [{ userId := 1, courseId := 10, progressPercentage := 100,
                      completedAt := some 3 }]
    progresses := []
    notifs := [] }

def w7u : User := { id := 1, isAdmin := false }

def w7db : DB :=
  { users := [{ id := 1, isAdmin := false }, { id := 2, isAdmin := true }]
    courses := [{ id := 10, instructorId := 2, isPrivate := false }]
    lessons := [mkLesson 100 10 1 false, mkLesson 101 10 2 false]
    enrollments := [{ userId := 1, courseId := 10, progressPercentage := 0,
                      completedAt := none }]
    progresses := [{ userId := 1, lessonId := 100 }]
    notifs := [] }

def w7db2 : DB :=
  { users := [{ id := 1, isAdmin := false }]
    courses := [{ id := 10, instructorId := 1, isPrivate := false }]
    lessons := [mkLesson 100 10 1 false]
    enrollments := []
    progresses := []
    notifs := [] }

lemma optCases {α : Type} (o : Option α) : o = none ∨ ∃ a, o = some a := by
  cases o <;> simp

lemma enrKey_true_iff {uid cid : Nat} {e : Enrollment} :
    enrKey uid cid e = true ↔ e.userId = uid ∧ e.courseId = cid := by
  simp [enrKey]

lemma updateRow_find_same (f : Enrollment → Enrollment)
    (hf : ∀ e, (f e).userId = e.userId ∧ (f e).courseId = e.courseId)
    (uid cid : Nat) (es : List Enrollment) :
    (updateEnrollmentRow f uid cid es).find? (enrKey uid cid) =
      (es.find? (enrKey uid cid)).map f := by
  induction es with
  | nil => simp [updateEnrollmentRow]
  | cons e es ih =>
    by_cases h : enrKey uid cid e = true
    · have hfe : enrKey uid cid (f e) = true := by
        rcases enrKey_true_iff.mp h with ⟨h1, h2⟩
        exact enrKey_true_iff.mpr ⟨(hf e).1.trans h1, (hf e).2.trans h2⟩
      simp [updateEnrollmentRow, h, List.find?_cons, hfe]
    · simp [updateEnrollmentRow, h, List.find?_cons, ih]

lemma updateRow_find_other (f : Enrollment → Enrollment)
    (hf : ∀ e, (f e).userId = e.userId ∧ (f e).courseId = e.courseId)
    (uid cid uid' cid' : Nat) (hne : ¬(uid' = uid ∧ cid' = cid))
    (es : List Enrollment) :
    (updateEnrollmentRow f uid cid es).find? (enrKey uid' cid') =
      es.find? (enrKey uid' cid') := by
  induction es with
  | nil => simp [updateEnrollmentRow]
  | cons e es ih =>
    by_cases h : enrKey uid cid e = true
    · have hne' : enrKey uid' cid' e = false := by
        rcases enrKey_true_iff.mp h with ⟨h1, h2⟩
        by_contra hc
        rw [Bool.not_eq_false] at hc
        rcases enrKey_true_iff.mp hc with ⟨h1', h2'⟩
        exact hne ⟨h1' ▸ h1 ▸ rfl, h2' ▸ h2 ▸ rfl⟩
      have hnef : enrKey uid' cid' (f e) = false := by
        by_contra hc
        rw [Bool.not_eq_false] at hc
        rcases enrKey_true_iff.mp hc with ⟨h1', h2'⟩
        rw [(hf e).1] at h1'
        rw [(hf e).2] at h2'
        exact absurd (enrKey_true_iff.mpr ⟨h1', h2'⟩) (by simp [hne'])
      simp [updateEnrollmentRow, h, List.find?_cons, hne', hnef]
    · simp only [updateEnrollmentRow, h]
      simp only [Bool.not_eq_true] at h
      by_cases h' : enrKey uid' cid' e = true
      · simp [List.find?_cons, h', h]
      · simp only [Bool.not_eq_true] at h'
        simp [List.find?_cons, h', ih, h]

lemma findUser_mk (us : List User) (cs : List Course) (ls : List Lesson)
    (es : List Enrollment) (ps : List LessonProgress) (ns : List Notification)
    (x : Nat) :
    findUser ⟨us, cs, ls, es, ps, ns⟩ x = us.find? (fun v => v.id == x) := rfl

lemma complete_lesson_notifs (db : DB) (u : User) (lid now : Nat) :
    (complete_lesson db u lid now).2.notifs =
      db.notifs ++ (if successfulCall db u lid then successNotifs db u lid else []) := by
  unfold complete_lesson successfulCall successNotifs completionTriggered
  cases h1 : findLesson db lid with
  | none => simp [h1]
  | some lesson =>
    cases h2 : findCourse db lesson.courseId with
    | none => simp [h1, h2]
    | some course =>
      cases h3 : findEnrollment db u.id course.id with
      | none => simp [h1, h2, h3]
      | some enr =>
        cases h4 : findProgress db u.id lid with
        | some p => simp [h1, h2, h3, h4]
        | none =>
          simp only [h1, h2, h3, h4, Option.isSome_some, Option.isNone_none,
            Bool.and_self, if_true, findUser_mk, findUser]
          have h100 : ¬((100:ℚ) ≤ 0) := by norm_num
          rcases optCases (db.users.find? (fun v => v.id == course.instructorId)) with
            h6 | ⟨instr, h6⟩
          · simp only [h6]
            split
            all_goals split
            all_goals simp_all
          · have h8 : instr.id = course.instructorId := by
              have h9 := List.find?_some h6
              simpa using h9
            simp only [h6]
            by_cases h7 : instr.id = u.id
            all_goals
              split
            all_goals split
            all_goals
              first
              | (simp_all
                 done)
              | (simp_all
                 rename_i hno
                 rw [if_neg]
                 intro hc
                 exact (hno hc.1) hc.2)
              | (simp_all
                 rw [if_neg]
                 intro hc
                 norm_num at hc)

lemma hfPct (pct : ℚ) (now : Nat) :
    ∀ e : Enrollment,
      (({ e with progressPercentage := pct, completedAt := some now } : Enrollment).userId = e.userId ∧
        ({ e with progressPercentage := pct, completedAt := some now } : Enrollment).courseId = e.courseId) :=
  fun _ => ⟨rfl, rfl⟩

lemma hfPctOnly (pct : ℚ) :
    ∀ e : Enrollment,
      (({ e with progressPercentage := pct } : Enrollment).userId = e.userId ∧
        ({ e with progressPercentage := pct } : Enrollment).courseId = e.courseId) :=
  fun _ => ⟨rfl, rfl⟩

lemma complete_lesson_enrollments (db : DB) (u : User) (lid now : Nat) :
    (complete_lesson db u lid now).2.enrollments = updatedEnrollments db u lid now := by
  unfold complete_lesson updatedEnrollments completionTriggered newPct
  cases h1 : findLesson db lid with
  | none => simp [h1]
  | some lesson =>
    cases h2 : findCourse db lesson.courseId with
    | none => simp [h1, h2]
    | some course =>
      cases h3 : findEnrollment db u.id course.id with
      | none => simp [h1, h2, h3]
      | some enr =>
        cases h4 : findProgress db u.id lid with
        | some p => simp [h1, h2, h3, h4]
        | none =>
          simp only [h1, h2, h3, h4, findUser_mk, findUser]
          have h100 : ¬((100:ℚ) ≤ 0) := by norm_num
          rcases optCases (db.users.find? (fun v => v.id == course.instructorId)) with
            h6 | ⟨instr, h6⟩
          · simp only [h6]
            split
            all_goals split
            all_goals
              first
              | (simp_all
                 done)
              | (simp_all
                 rename_i hno
                 rw [if_neg]
                 intro hc
                 exact (hno hc.1) hc.2)
              | (simp_all
                 rw [if_neg]
                 intro hc
                 norm_num at hc)
          · simp only [h6]
            by_cases h7 : instr.id = u.id
            all_goals
              split
            all_goals split
            all_goals
              first
              | (simp_all
                 done)
              | (simp_all
                 rename_i hno
                 rw [if_neg]
                 intro hc
                 exact (hno hc.1) hc.2)
              | (simp_all
                 rw [if_neg]
                 intro hc
                 norm_num at hc)

lemma enroll_course_enrollments (db : DB) (u : User) (cid : Nat) :
    (enroll_course db u cid).2.enrollments =
      if (findCourse db cid).isSome && (findEnrollment db u.id cid).isNone then
        db.enrollments ++
          [{ userId := u.id, courseId := cid, progressPercentage := 0, completedAt := none }]
      else db.enrollments := by
  unfold enroll_course
  cases h1 : findCourse db cid with
  | none => simp [h1]
  | some course =>
    cases h2 : findEnrollment db u.id cid with
    | some e => simp [h1, h2]
    | none =>
      simp only [h1, h2, Option.isSome_some, Option.isNone_none, Bool.and_self,
        if_true, findUser_mk, findUser]
      rcases optCases ((db.users.find? (fun v => v.id == course.instructorId))) with
        h6 | ⟨instr, h6⟩
      · simp [h6]
      · by_cases h7 : instr.id = u.id <;> simp [h6, h7]

lemma updatedEnrollments_stable (db : DB) (u : User) (lid now uid cid t : Nat)
    (h : (db.enrollments.find? (enrKey uid cid)).map (fun e => e.completedAt) =
      some (some t)) :
    ((updatedEnrollments db u lid now).find? (enrKey uid cid)).map (fun e => e.completedAt) =
      some (some t) := by
  obtain ⟨e, he, het⟩ :
      ∃ e, db.enrollments.find? (enrKey uid cid) = some e ∧ e.completedAt = some t := by
    rcases optCases (db.enrollments.find? (enrKey uid cid)) with h0 | ⟨e, h0⟩
    · rw [h0] at h; simp at h
    · rw [h0] at h; simp at h; exact ⟨e, h0, h⟩
  unfold updatedEnrollments
  cases h1 : findLesson db lid with
  | none => simp [h1, he, het]
  | some lesson =>
    cases h2 : findCourse db lesson.courseId with
    | none => simp [h1, h2, he, het]
    | some course =>
      cases h3 : findEnrollment db u.id course.id with
      | none => simp [h1, h2, h3, he, het]
      | some enr =>
        cases h4 : findProgress db u.id lid with
        | some p => simp [h1, h2, h3, h4, he, het]
        | none =>
          simp only [h1, h2, h3, h4]
          by_cases hk : uid = u.id ∧ cid = course.id
          · have hee : enr = e := by
              unfold findEnrollment at h3
              rw [← hk.1, ← hk.2] at h3
              rw [he] at h3
              exact (Option.some.inj h3).symm
            have htrig : completionTriggered db u lid = false := by
              unfold completionTriggered
              simp only [h1, h2, h3, h4]
              simp [hee, het]
            rw [htrig]
            simp only [Bool.false_eq_true, if_false]
            rw [← hk.1, ← hk.2]
            rw [updateRow_find_same _ (hfPctOnly _), he]
            simp [het]
          · split
            · rw [updateRow_find_other _ (hfPct _ _) _ _ _ _ hk, he]
              simp [het]
            · rw [updateRow_find_other _ (hfPctOnly _) _ _ _ _ hk, he]
              simp [het]

lemma applyOp_stable (db : DB) (op : Op) (uid cid t : Nat)
    (h : completedAtOf db uid cid = some (some t)) :
    completedAtOf (applyOp db op) uid cid = some (some t) := by
  cases op with
  | completeOp u lid now =>
    unfold applyOp completedAtOf findEnrollment
    rw [complete_lesson_enrollments]
    exact updatedEnrollments_stable db u lid now uid cid t h
  | enrollOp u cid' =>
    unfold applyOp completedAtOf findEnrollment
    rw [enroll_course_enrollments]
    obtain ⟨e, he, het⟩ :
        ∃ e, db.enrollments.find? (enrKey uid cid) = some e ∧ e.completedAt = some t := by
      rcases optCases (db.enrollments.find? (enrKey uid cid)) with h0 | ⟨e, h0⟩
      · unfold completedAtOf findEnrollment at h
        rw [h0] at h; simp at h
      · unfold completedAtOf findEnrollment at h
        rw [h0] at h; simp at h; exact ⟨e, h0, h⟩
    split
    · rw [List.find?_append, he]
      simp [het]
    · rw [he]
      simp [het]

lemma completedAtSet_true_iff (db : DB) (uid cid : Nat) :
    completedAtSet db uid cid = true ↔ ∃ t, completedAtOf db uid cid = some (some t) := by
  unfold completedAtSet completedAtOf
  rcases optCases (findEnrollment db uid cid) with h | ⟨e, h⟩
  · simp [h]
  · rcases optCases e.completedAt with h' | ⟨t, h'⟩ <;> simp [h, h']

lemma applyOp_set_stable (db : DB) (op : Op) (uid cid : Nat)
    (h : completedAtSet db uid cid = true) :
    completedAtSet (applyOp db op) uid cid = true := by
  rcases (completedAtSet_true_iff db uid cid).mp h with ⟨t, ht⟩
  exact (completedAtSet_true_iff _ uid cid).mpr ⟨t, applyOp_stable db op uid cid t ht⟩

lemma opFlips_of_set (db : DB) (op : Op) (uid cid : Nat)
    (h : completedAtSet db uid cid = true) :
    opFlips db op uid cid = false := by
  unfold opFlips
  simp [h]

lemma set_after_flip (db : DB) (op : Op) (uid cid : Nat)
    (h : opFlips db op uid cid = true) :
    completedAtSet (applyOp db op) uid cid = true := by
  unfold opFlips at h
  exact (Bool.and_eq_true _ _ |>.mp h).2

lemma flipCount_eq_zero (uid cid : Nat) :
    ∀ (ops : List Op) (db : DB), completedAtSet db uid cid = true →
      flipCount db uid cid ops = 0
  | [], _, _ => rfl
  | op :: ops, db, h => by
    unfold flipCount
    rw [opFlips_of_set db op uid cid h,
      flipCount_eq_zero uid cid ops (applyOp db op) (applyOp_set_stable db op uid cid h)]
    simp

lemma flipCount_le_one (uid cid : Nat) :
    ∀ (ops : List Op) (db : DB), flipCount db uid cid ops ≤ 1
  | [], _ => by simp [flipCount]
  | op :: ops, db => by
    unfold flipCount
    by_cases hf : opFlips db op uid cid = true
    · rw [hf, flipCount_eq_zero uid cid ops _ (set_after_flip db op uid cid hf)]
      simp
    · simp only [Bool.not_eq_true] at hf
      rw [hf]
      simpa using flipCount_le_one uid cid ops (applyOp db op)

lemma opFlips_enroll_false (db : DB) (u : User) (cid uid cid' : Nat) :
    opFlips db (.enrollOp u cid) uid cid' = false := by
  have hset : completedAtSet (applyOp db (.enrollOp u cid)) uid cid' =
      completedAtSet db uid cid' := by
    unfold applyOp completedAtSet findEnrollment
    rw [enroll_course_enrollments]
    by_cases hins : ((findCourse db cid).isSome && (findEnrollment db u.id cid).isNone) = true
    · rw [if_pos hins]
      rcases optCases (db.enrollments.find? (enrKey uid cid')) with h0 | ⟨e, h0⟩
      · by_cases hkey : enrKey uid cid'
            ({ userId := u.id, courseId := cid, progressPercentage := 0,
               completedAt := none } : Enrollment) = true
        · simp [List.find?_append, h0, hkey]
        · simp only [Bool.not_eq_true] at hkey
          simp [List.find?_append, h0, hkey]
      · simp [List.find?_append, h0]
    · rw [if_neg hins]
  unfold opFlips
  rw [hset]
  cases completedAtSet db uid cid' <;> simp

lemma completedAtSet_complete (db : DB) (u : User) (lid now uid cid : Nat) :
    completedAtSet (complete_lesson db u lid now).2 uid cid =
      (completedAtSet db uid cid ||
        (decide (uid = u.id) && decide (lessonCourseOf db lid = some cid) &&
          completionTriggered db u lid)) := by
  unfold completedAtSet findEnrollment lessonCourseOf
  rw [complete_lesson_enrollments]
  unfold updatedEnrollments
  cases h1 : findLesson db lid with
  | none =>
    have htf : completionTriggered db u lid = false := by
      unfold completionTriggered
      simp [h1]
    simp [h1, htf, completedAtSet, findEnrollment]
  | some lesson =>
    cases h2 : findCourse db lesson.courseId with
    | none =>
      have htf : completionTriggered db u lid = false := by
        unfold completionTriggered
        simp [h1, h2]
      simp [h1, h2, htf]
    | some course =>
      have hcourse : course.id = lesson.courseId := by
        unfold findCourse at h2
        have h9 := List.find?_some h2
        simpa using h9
      cases h3 : findEnrollment db u.id course.id with
      | none =>
        have htf : completionTriggered db u lid = false := by
          unfold completionTriggered
          simp [h1, h2, h3]
        simp [h1, h2, h3, htf]
      | some enr =>
        cases h4 : findProgress db u.id lid with
        | some p =>
          have htf : completionTriggered db u lid = false := by
            unfold completionTriggered
            simp [h1, h2, h3, h4]
          simp [h1, h2, h3, h4, htf]
        | none =>
          simp only [h1, h2, h3, h4, Option.map_some]
          by_cases htrig : completionTriggered db u lid = true
          · have hnone : enr.completedAt = none := by
              unfold completionTriggered at htrig
              simp only [h1, h2, h3, h4] at htrig
              rw [decide_eq_true_eq] at htrig
              exact htrig.2
            rw [htrig]
            simp only [if_true, Bool.and_true]
            by_cases hk : uid = u.id ∧ cid = course.id
            · have hpre : db.enrollments.find? (enrKey uid cid) = some enr := by
                unfold findEnrollment at h3
                rw [hk.1, hk.2]
                exact h3
              rw [hk.1, hk.2, updateRow_find_same _ (hfPct _ _)]
              rw [← hk.1, ← hk.2, hpre]
              simp [hnone, hk.1, hk.2, hcourse]
            · rw [updateRow_find_other _ (hfPct _ _) _ _ _ _ hk]
              have hcond : (decide (uid = u.id) && decide (lesson.courseId = cid)) = false := by
                rcases Decidable.not_and_iff_or_not.mp hk with hu | hc
                · simp [hu]
                · have : ¬lesson.courseId = cid := by
                    rw [← hcourse]
                    exact fun hx => hc hx.symm
                  simp [this]
              rcases optCases (db.enrollments.find? (enrKey uid cid)) with h0 | ⟨e, h0⟩
              · simp [h0, hcond]
              · simp [h0, hcond]
          · simp only [Bool.not_eq_true] at htrig
            rw [htrig]
            simp only [Bool.false_eq_true, if_false, Bool.and_false, Bool.or_false]
            by_cases hk : uid = u.id ∧ cid = course.id
            · have hpre : db.enrollments.find? (enrKey uid cid) = some enr := by
                unfold findEnrollment at h3
                rw [hk.1, hk.2]
                exact h3
              rw [hk.1, hk.2, updateRow_find_same _ (hfPctOnly _)]
              rw [← hk.1, ← hk.2, hpre]
              simp
            · rw [updateRow_find_other _ (hfPctOnly _) _ _ _ _ hk]

lemma opFlips_complete_iff (db : DB) (u : User) (lid now uid cid : Nat) :
    opFlips db (.completeOp u lid now) uid cid = true ↔
      uid = u.id ∧ lessonCourseOf db lid = some cid ∧
        completionTriggered db u lid = true := by
  unfold opFlips applyOp
  rw [completedAtSet_complete]
  constructor
  · intro h
    simp only [Bool.and_eq_true, Bool.not_eq_true', Bool.or_eq_true] at h
    rcases h with ⟨hpre, hor⟩
    rcases hor with hp | hcond
    · rw [hpre] at hp
      exact absurd hp (by simp)
    · simp only [Bool.and_eq_true, decide_eq_true_eq] at hcond
      exact ⟨hcond.1.1, hcond.1.2, hcond.2⟩
  · rintro ⟨hu, hc, htrig⟩
    obtain ⟨lesson, hl, hlcid⟩ :
        ∃ lesson, findLesson db lid = some lesson ∧ lesson.courseId = cid := by
      unfold lessonCourseOf at hc
      rcases optCases (findLesson db lid) with h0 | ⟨lesson, h0⟩
      · rw [h0] at hc; simp at hc
      · rw [h0] at hc; simp at hc; exact ⟨lesson, h0, hc⟩
    have hpre : completedAtSet db uid cid = false := by
      unfold completionTriggered at htrig
      simp only [hl] at htrig
      rcases optCases (findCourse db lesson.courseId) with h2 | ⟨course, h2⟩
      · simp only [h2] at htrig
        exact absurd htrig (by simp)
      · simp only [h2] at htrig
        have hcourse : course.id = lesson.courseId := by
          unfold findCourse at h2
          have h9 := List.find?_some h2
          simpa using h9
        rcases optCases (findEnrollment db u.id course.id) with h3 | ⟨enr, h3⟩
        · simp only [h3] at htrig
          exact absurd htrig (by simp)
        · simp only [h3] at htrig
          rcases optCases (findProgress db u.id lid) with h4 | ⟨p, h4⟩
          · simp only [h4] at htrig
            rw [decide_eq_true_eq] at htrig
            have hnone := htrig.2
            unfold completedAtSet
            have hfe : findEnrollment db uid cid = some enr := by
              rw [hu, ← hlcid, ← hcourse]
              exact h3
            simp [hfe, hnone]
          · simp only [h4] at htrig
            exact absurd htrig (by simp)
    rw [hpre]
    simp [hu, hc, htrig]

lemma trig_implies_succ (db : DB) (u : User) (lid : Nat)
    (h : completionTriggered db u lid = true) : successfulCall db u lid = true := by
  unfold completionTriggered at h
  unfold successfulCall
  cases h1 : findLesson db lid with
  | none =>
    simp only [h1] at h
    exact absurd h (by simp)
  | some lesson =>
    simp only [h1] at h
    cases h2 : findCourse db lesson.courseId with
    | none =>
      simp only [h2] at h
      exact absurd h (by simp)
    | some course =>
      simp only [h2] at h
      cases h3 : findEnrollment db u.id course.id with
      | none =>
        simp only [h3] at h
        exact absurd h (by simp)
      | some enr =>
        cases h4 : findProgress db u.id lid with
        | some p =>
          simp only [h3, h4] at h
          exact absurd h (by simp)
        | none => simp [h1, h2, h3, h4]

lemma complete_sysCount (db : DB) (u : User) (lid now : Nat) :
    ((complete_lesson db u lid now).2.notifs).count (sysCompletionNotice u.id) =
      db.notifs.count (sysCompletionNotice u.id) +
        (if completionTriggered db u lid then 1 else 0) := by
  rw [complete_lesson_notifs, List.count_append]
  congr 1
  by_cases hs : successfulCall db u lid = true
  · rw [if_pos hs]
    unfold successNotifs
    unfold successfulCall at hs
    cases h1 : findLesson db lid with
    | none => simp [h1] at hs
    | some lesson =>
      simp only [h1] at hs
      cases h2 : findCourse db lesson.courseId with
      | none => simp [h2] at hs
      | some course =>
        by_cases htrig : completionTriggered db u lid = true
        · by_cases hio : (match findUser db course.instructorId with
              | some instr => instr.id != u.id
              | none => false) = true
          · simp [h2, htrig, hio, List.count_cons, beq_iff_eq,
              sysCompletionNotice, instrCompletionNotice]
          · simp only [Bool.not_eq_true] at hio
            simp [h2, htrig, hio, List.count_cons, beq_iff_eq, sysCompletionNotice]
        · simp only [Bool.not_eq_true] at htrig
          by_cases hio : (match findUser db course.instructorId with
              | some instr => instr.id != u.id
              | none => false) = true
          · simp [h2, htrig, hio, List.count_cons, beq_iff_eq,
              sysCompletionNotice, lessonDoneNotice]
          · simp only [Bool.not_eq_true] at hio
            simp [h2, htrig, hio]
  · simp only [Bool.not_eq_true] at hs
    have htrig : completionTriggered db u lid = false := by
      cases htr : completionTriggered db u lid with
      | true => exact absurd (trig_implies_succ db u lid htr) (by simp [hs])
      | false => rfl
    simp [hs, htrig]

lemma complete_notEnrolled (db : DB) (u : User) (lid now : Nat)
    (lesson : Lesson) (course : Course)
    (hl : findLesson db lid = some lesson)
    (hc : findCourse db lesson.courseId = some course)
    (he : findEnrollment db u.id course.id = none) :
    complete_lesson db u lid now = (.notEnrolled, db) := by
  unfold complete_lesson
  simp [hl, hc, he]

lemma complete_alreadyDone (db : DB) (u : User) (lid now : Nat)
    (lesson : Lesson) (course : Course) (e : Enrollment) (p : LessonProgress)
    (hl : findLesson db lid = some lesson)
    (hc : findCourse db lesson.courseId = some course)
    (he : findEnrollment db u.id course.id = some e)
    (hp : findProgress db u.id lid = some p) :
    complete_lesson db u lid now = (.alreadyCompleted, db) := by
  unfold complete_lesson
  simp [hl, hc, he, hp]

lemma complete_lesson_progresses (db : DB) (u : User) (lid now : Nat) :
    (complete_lesson db u lid now).2.progresses =
      if successfulCall db u lid then
        db.progresses ++ [{ userId := u.id, lessonId := lid }]
      else db.progresses := by
  unfold complete_lesson successfulCall
  cases h1 : findLesson db lid with
  | none => simp [h1]
  | some lesson =>
    cases h2 : findCourse db lesson.courseId with
    | none => simp [h1, h2]
    | some course =>
      cases h3 : findEnrollment db u.id course.id with
      | none => simp [h1, h2, h3]
      | some enr =>
        cases h4 : findProgress db u.id lid with
        | some p => simp [h1, h2, h3, h4]
        | none =>
          simp only [h1, h2, h3, h4, Option.isSome_some, Option.isNone_none,
            Bool.and_self, if_true, findUser_mk, findUser]
          rcases optCases (db.users.find? (fun v => v.id == course.instructorId)) with
            h6 | ⟨instr, h6⟩
          · simp only [h6]
            split
            all_goals split
            all_goals rfl
          · simp only [h6]
            by_cases h7 : instr.id = u.id
            all_goals split
            all_goals split
            all_goals simp [h7]

lemma complete_preserves_unique (db : DB) (u : User) (lid now : Nat)
    (h : progressUnique db) :
    progressUnique (complete_lesson db u lid now).2 := by
  intro uid lid'
  rw [complete_lesson_progresses]
  by_cases hs : successfulCall db u lid = true
  · rw [if_pos hs]
    rw [List.filter_append, List.length_append]
    by_cases hkey : progKey uid lid' ({ userId := u.id, lessonId := lid } : LessonProgress) = true
    · have hfp : findProgress db u.id lid = none := by
        unfold successfulCall at hs
        cases h1 : findLesson db lid with
        | none => simp [h1] at hs
        | some lesson =>
          simp only [h1] at hs
          cases h2 : findCourse db lesson.courseId with
          | none => simp [h2] at hs
          | some course =>
            simp only [h2, Bool.and_eq_true] at hs
            exact Option.isNone_iff_eq_none.mp hs.2
      have hkk : uid = u.id ∧ lid' = lid := by
        unfold progKey at hkey
        simp at hkey
        exact ⟨hkey.1.symm, hkey.2.symm⟩
      have hempty : db.progresses.filter (progKey uid lid') = [] := by
        rw [List.filter_eq_nil_iff]
        intro p hp
        intro hpk
        unfold findProgress at hfp
        rw [hkk.1, hkk.2] at hpk
        have := List.find?_eq_none.mp hfp p hp
        exact this hpk
      rw [hempty]
      simp [hkey]
    · simp only [Bool.not_eq_true] at hkey
      have : (([{ userId := u.id, lessonId := lid }] : List LessonProgress).filter
          (progKey uid lid')).length = 0 := by
        simp [hkey]
      rw [this]
      simpa using h uid lid'
  · rw [if_neg hs]
    exact h uid lid'

/-- Claim C1 (code_bug evidence): the claim says completeLesson stores and
returns round(100 * completedCount / totalLessons) with the just-inserted
LessonProgress row counted exactly once.  On a 4-lesson course, a first
completion should therefore yield round(100 * 1 / 4) = 25; the code instead
stores and returns 50, because the autoflushed insert is counted by the
join query and then added again, and no rounding is applied. -/
theorem claim_C1_code_eval :
    (complete_lesson c1db c1u 100 5).1 = .ok 50 false ∧
    (findEnrollment (complete_lesson c1db c1u 100 5).2 1 10).map
      (fun e => e.progressPercentage) = some 50 ∧
    round ((100 * (1 : ℚ)) / 4) = 25 ∧ (50 : ℚ) ≠ 25 := by
  refine ⟨?_, ?_, by norm_num [round_eq], by norm_num⟩
  · norm_num [complete_lesson, findLesson, findCourse, findEnrollment, findProgress,
      enrKey, progKey, lessonCountOfCourse, progressJoinCount, updateEnrollmentRow,
      findUser, c1db, c1u, mkLesson, List.find?_cons, List.filter_cons, List.flatMap_cons]
  · norm_num [complete_lesson, findLesson, findCourse, findEnrollment, findProgress,
      enrKey, progKey, lessonCountOfCourse, progressJoinCount, updateEnrollmentRow,
      findUser, c1db, c1u, mkLesson, List.find?_cons, List.filter_cons, List.flatMap_cons]

/-- Claim C2 counterexample: user 7 is the instructor of course 20, is not
an admin, holds no enrollment, and the lesson is not free; the claim says
access is granted, but the gate denies it and the lesson endpoint returns
403 — the access decision never consults instructor_id. -/
theorem claim_C2_counterexample :
    c2instr.id = 7 ∧ c2instr.isAdmin = false ∧
    (findCourse c2db 20).map (fun c => c.instructorId) = some 7 ∧
    findEnrollment c2db 7 20 = none ∧
    c2lesson.isFree = false ∧
    can_access c2db (some c2instr) c2lesson = false ∧
    get_lesson c2db (some c2instr) 200 = .accessDenied := by
  decide

/-- Claim C2 amended: the lesson access decision does not special-case the
instructor.  For every non-admin, non-enrolled user — even one whose id
equals the course's instructor_id — a non-free lesson is inaccessible and
its endpoint answers 403. -/
theorem claim_C2_amended (db : DB) (u : User) (lid : Nat) (lesson : Lesson)
    (course : Course)
    (hl : findLesson db lid = some lesson)
    (hc : findCourse db lesson.courseId = some course)
    (hinstr : course.instructorId = u.id)
    (hadm : u.isAdmin = false)
    (he : findEnrollment db u.id lesson.courseId = none)
    (hfree : lesson.isFree = false) :
    can_access db (some u) lesson = false ∧
    get_lesson db (some u) lid = .accessDenied := by
  have hacc : can_access db (some u) lesson = false := by
    unfold can_access isEnrolledQ userIsAdmin
    simp [hfree, he, hadm]
  refine ⟨hacc, ?_⟩
  unfold get_lesson
  simp [hl, hc, hacc]

/-- Witness for the amended claim C2 at a concrete database. -/
theorem claim_C2_witness :
    can_access c2db (some c2instr) (mkLesson 200 20 1 false) = false ∧
    get_lesson c2db (some c2instr) 200 = .accessDenied :=
  claim_C2_amended c2db c2instr 200 (mkLesson 200 20 1 false)
    { id := 20, instructorId := 7, isPrivate := false }
    (by decide) (by decide) (by decide) (by decide) (by decide) (by decide)

/-- Claim C3 counterexample: a successful completeLesson call that causes
course completion (here the single lesson of a 1-lesson course; instructor
2 differs from the completing user 1) emits no LessonCompleted
notification at all — only course_completed records — refuting the claim
that every successful call emits one to the instructor. -/
theorem claim_C3_counterexample :
    (complete_lesson c3db c3u 100 5).1 = .ok 200 true ∧
    (complete_lesson c3db c3u 100 5).2.notifs =
      [sysCompletionNotice 1, instrCompletionNotice 2 1 10] ∧
    ∀ n ∈ (complete_lesson c3db c3u 100 5).2.notifs, n.ntype ≠ "lesson_completed" := by
  have hrun : complete_lesson c3db c3u 100 5 =
      (.ok 200 true,
        { users := c3db.users, courses := c3db.courses, lessons := c3db.lessons,
          enrollments := [{ userId := 1, courseId := 10, progressPercentage := 200,
                            completedAt := some 5 }],
          progresses := [{ userId := 1, lessonId := 100 }],
          notifs := [sysCompletionNotice 1, instrCompletionNotice 2 1 10] }) := by
    norm_num [complete_lesson, findLesson, findCourse, findEnrollment, findProgress,
      enrKey, progKey, lessonCountOfCourse, progressJoinCount, updateEnrollmentRow,
      findUser, c3db, c3u, mkLesson, List.find?_cons, List.filter_cons, List.flatMap_cons]
  rw [hrun]
  refine ⟨rfl, rfl, ?_⟩
  intro n hn
  simp only [List.mem_cons, List.not_mem_nil, or_false] at hn
  rcases hn with rfl | rfl
  · simp [sysCompletionNotice]
  · simp [instrCompletionNotice]

/-- Claim C3 amended: a successful completeLesson call appends exactly the
following notifications: on the completion branch (percentage at least 100
and completed_at still null) a system course_completed to the student
plus, when the instructor row exists and is a different user, a
course_completed to the instructor; on every other successful call a
single lesson_completed to such an instructor.  In particular the
completing call emits no LessonCompleted, and the instructor notification
is suppressed exactly when the instructor row is missing or the instructor
is the completing user. -/
theorem claim_C3_amended (db : DB) (u : User) (lid now : Nat) :
    (complete_lesson db u lid now).2.notifs =
      db.notifs ++ (if successfulCall db u lid then successNotifs db u lid else []) :=
  complete_lesson_notifs db u lid now

/-- Claim C4 counterexample: with 15 active users besides the creator, the
new-course broadcast inserts 15 notification rows — the claim's cap of 10
does not hold for create_course, whose recipient query has no limit. -/
theorem claim_C4_counterexample :
    (create_course c4db c4actor 10 false).notifs.length = 15 ∧ ¬(15 ≤ 10) := by
  decide

/-- Claim C4 amended: the new-post broadcast inserts at most 10
notification rows, none addressed to the acting user; the new-course
broadcast inserts one row per other user with no cap, none addressed to
the acting user. -/
theorem claim_C4_amended (db : DB) (u : User) (pid cid : Nat) (isPriv : Bool) :
    (∃ new, (create_post db u pid).notifs = db.notifs ++ new ∧
      new.length ≤ 10 ∧ ∀ n ∈ new, n.recipientId ≠ u.id) ∧
    (∃ new, (create_course db u cid isPriv).notifs = db.notifs ++ new ∧
      new.length = (db.users.filter (fun v => v.id != u.id)).length ∧
      ∀ n ∈ new, n.recipientId ≠ u.id) := by
  constructor
  · refine ⟨_, rfl, ?_, ?_⟩
    · rw [List.length_map, List.length_take]
      exact min_le_left _ _
    · intro n hn
      rcases List.mem_map.mp hn with ⟨v, hv, rfl⟩
      have hv' : v ∈ db.users.filter (fun v => v.id != u.id) :=
        List.take_subset _ _ hv
      have hne := (List.mem_filter.mp hv').2
      simp only [newPostNotice]
      simpa using hne
  · refine ⟨_, rfl, ?_, ?_⟩
    · exact List.length_map _ _
    · intro n hn
      rcases List.mem_map.mp hn with ⟨v, hv, rfl⟩
      have hne := (List.mem_filter.mp hv).2
      simp only [newCourseNotice]
      simpa using hne

/-- Claim C5: for every enrollment, completed_at transitions from null to
a timestamp at most once and only in a completeLesson call by that user on
a lesson of that course whose recomputed percentage reaches at least 100
while completed_at is still null (the completionTriggered guard); the
system CourseCompleted notification is emitted exactly in the calls where
that guard fires; enroll never performs the transition; and across any
sequence of enroll/completeLesson requests the transition happens at most
once per (user, course). -/
theorem claim_C5 :
    (∀ (db : DB) (op : Op) (uid cid t : Nat),
        completedAtOf db uid cid = some (some t) →
        completedAtOf (applyOp db op) uid cid = some (some t)) ∧
    (∀ (db : DB) (u : User) (lid now uid cid : Nat),
        opFlips db (.completeOp u lid now) uid cid = true ↔
          uid = u.id ∧ lessonCourseOf db lid = some cid ∧
            completionTriggered db u lid = true) ∧
    (∀ (db : DB) (u : User) (cid uid cid' : Nat),
        opFlips db (.enrollOp u cid) uid cid' = false) ∧
    (∀ (db : DB) (u : User) (lid now : Nat),
        ((complete_lesson db u lid now).2.notifs).count (sysCompletionNotice u.id) =
          db.notifs.count (sysCompletionNotice u.id) +
            (if completionTriggered db u lid then 1 else 0)) ∧
    (∀ (uid cid : Nat) (ops : List Op) (db : DB), flipCount db uid cid ops ≤ 1) :=
  ⟨fun db op uid cid t h => applyOp_stable db op uid cid t h,
   fun db u lid now uid cid => opFlips_complete_iff db u lid now uid cid,
   fun db u cid uid cid' => opFlips_enroll_false db u cid uid cid',
   fun db u lid now => complete_sysCount db u lid now,
   fun uid cid ops db => flipCount_le_one uid cid ops db⟩

/-- Witness for claim C5 at a concrete database: the stability conjunct
applied to an enrollment whose completed_at is already set. -/
theorem claim_C5_witness :
    completedAtOf w5db 1 10 = some (some 3) ∧
    completedAtOf (applyOp w5db (.enrollOp w5u2 10)) 1 10 = some (some 3) :=
  ⟨by decide, claim_C5.1 w5db (.enrollOp w5u2 10) 1 10 3 (by decide)⟩

/-- Claim C6 (code_bug evidence): the claim says the stored
progress_percentage always lies in [0, 100].  Completing the only lesson
of a 1-lesson course stores 200, because the inserted progress row is
counted twice; 200 is outside the claimed interval. -/
theorem claim_C6_code_eval :
    (findEnrollment (complete_lesson c6db c6u 100 5).2 1 10).map
      (fun e => e.progressPercentage) = some 200 ∧ ¬((200 : ℚ) ≤ 100) := by
  refine ⟨?_, by norm_num⟩
  norm_num [complete_lesson, findLesson, findCourse, findEnrollment, findProgress,
    enrKey, progKey, lessonCountOfCourse, progressJoinCount, updateEnrollmentRow,
    findUser, c6db, c6u, mkLesson, List.find?_cons, List.filter_cons, List.flatMap_cons]

/-- Claim C7: completeLesson fails with NotEnrolled when no enrollment
exists for (user, lesson's course) and with AlreadyCompleted when a
LessonProgress row already exists, in both cases leaving the database
unchanged; and it preserves the invariant that at most one LessonProgress
row exists per (user, lesson). -/
theorem claim_C7 (db : DB) (u : User) (lid now : Nat) :
    (∀ (lesson : Lesson) (course : Course),
      findLesson db lid = some lesson →
      findCourse db lesson.courseId = some course →
      findEnrollment db u.id course.id = none →
      complete_lesson db u lid now = (.notEnrolled, db)) ∧
    (∀ (lesson : Lesson) (course : Course) (e : Enrollment) (p : LessonProgress),
      findLesson db lid = some lesson →
      findCourse db lesson.courseId = some course →
      findEnrollment db u.id course.id = some e →
      findProgress db u.id lid = some p →
      complete_lesson db u lid now = (.alreadyCompleted, db)) ∧
    (progressUnique db → progressUnique (complete_lesson db u lid now).2) :=
  ⟨fun lesson course hl hc he => complete_notEnrolled db u lid now lesson course hl hc he,
   fun lesson course e p hl hc he hp =>
     complete_alreadyDone db u lid now lesson course e p hl hc he hp,
   fun h => complete_preserves_unique db u lid now h⟩

/-- Witness for claim C7 at concrete databases: a NotEnrolled failure, an
AlreadyCompleted failure, and the preserved uniqueness invariant. -/
theorem claim_C7_witness :
    complete_lesson w7db2 w7u 100 5 = (.notEnrolled, w7db2) ∧
    complete_lesson w7db w7u 100 5 = (.alreadyCompleted, w7db) :=
  ⟨(claim_C7 w7db2 w7u 100 5).1 (mkLesson 100 10 1 false)
      { id := 10, instructorId := 1, isPrivate := false }
      (by decide) (by decide) (by decide),
   (claim_C7 w7db w7u 100 5).2.1 (mkLesson 100 10 1 false)
      { id := 10, instructorId := 2, isPrivate := false }
      { userId := 1, courseId := 10, progressPercentage := 0, completedAt := none }
      { userId := 1, lessonId := 100 }
      (by decide) (by decide) (by decide) (by decide)⟩

/-- Claim C8 (code_bug evidence): during enroll, a failed instructor
notification leaves the committed enrollment row in place as the claim
demands; but during completeLesson a failed notification rolls the whole
session back — the committed state afterwards has no LessonProgress row
and an unchanged percentage of 0, while the handler still reports success
with percentage 50 — contradicting the claim that the primary effect still
commits. -/
theorem claim_C8_code_eval :
    ((enroll_course_sess ⟨e8db, e8db⟩ e8u 10 false).1 = .created ∧
      findEnrollment (enroll_course_sess ⟨e8db, e8db⟩ e8u 10 false).2.committed 1 10 =
        some { userId := 1, courseId := 10, progressPercentage := 0,
               completedAt := none } ∧
      (enroll_course_sess ⟨e8db, e8db⟩ e8u 10 false).2.committed.notifs = []) ∧
    ((complete_lesson_sess ⟨c8db, c8db⟩ c8u 100 5 [false]).1 = .ok 50 false ∧
      (complete_lesson_sess ⟨c8db, c8db⟩ c8u 100 5 [false]).2.committed.progresses = [] ∧
      (findEnrollment (complete_lesson_sess ⟨c8db, c8db⟩ c8u 100 5 [false]).2.committed
          1 10).map (fun e => e.progressPercentage) = some 0) := by
  constructor
  · refine ⟨by decide, by decide, by decide⟩
  · have hrun : complete_lesson_sess ⟨c8db, c8db⟩ c8u 100 5 [false] =
        (.ok 50 false, ⟨c8db, c8db⟩) := by
      norm_num [complete_lesson_sess, create_notification_sess, sessCommit, sessRollback,
        findLesson, findCourse, findEnrollment, findProgress, enrKey, progKey,
        lessonCountOfCourse, progressJoinCount, updateEnrollmentRow, findUser,
        c8db, c8u, mkLesson, List.find?_cons, List.filter_cons, List.flatMap_cons]
    rw [hrun]
    refine ⟨rfl, rfl, by decide⟩

/-- Claim C9: a free lesson is accessible to every viewer, including one
with no session; its endpoint serves the content and video to an anonymous
viewer, and every free entry of a lesson listing is marked accessible with
its content and video fields present. -/
theorem claim_C9 (db : DB) (lid : Nat) (lesson : Lesson) (course : Course)
    (hl : findLesson db lid = some lesson)
    (hc : findCourse db lesson.courseId = some course)
    (hfree : lesson.isFree = true) :
    (∀ user?, can_access db user? lesson = true) ∧
    get_lesson db none lid = .ok lesson.content lesson.videoUrl false ∧
    (∀ (db' : DB) (user? : Option User) (cid : Nat) (entries : List LessonEntry)
        (e : LessonEntry),
      get_course_lessons db' user? cid = some entries → e ∈ entries →
      e.isFree = true →
      e.isAccessible = true ∧ e.content.isSome = true ∧ e.videoUrl.isSome = true) := by
  have hacc : ∀ user?, can_access db user? lesson = true := by
    intro user?
    unfold can_access
    simp [hfree]
  refine ⟨hacc, ?_, ?_⟩
  · unfold get_lesson
    simp [hl, hc, hacc none]
  · intro db' user? cid entries e hg hm hf
    unfold get_course_lessons at hg
    rcases optCases (findCourse db' cid) with h0 | ⟨c, h0⟩
    · rw [h0] at hg
      simp at hg
    · rw [h0] at hg
      simp only [Option.some.injEq] at hg
      subst hg
      rcases List.mem_map.mp hm with ⟨l', hl', rfl⟩
      unfold serializeLesson at hf ⊢
      simp only at hf
      simp [hf]

/-- Witness for claim C9 at a concrete database: the anonymous lesson
endpoint serves the free lesson's content. -/
theorem claim_C9_witness :
    get_lesson c9db none 400 = .ok "contenuto" "video" false :=
  (claim_C9 c9db 400 (mkLesson 400 40 1 true)
    { id := 40, instructorId := 1, isPrivate := false }
    (by decide) (by decide) (by decide)).2.1

/-- Claim C10: enroll never checks the course's privacy flag — an
authenticated non-admin user who is denied getCourse on a private course
can nevertheless enroll, creating an Enrollment with percentage 0 and no
completion timestamp. -/
theorem claim_C10 (db : DB) (u : User) (cid : Nat) (course : Course)
    (hc : findCourse db cid = some course)
    (hpriv : course.isPrivate = true)
    (hadm : u.isAdmin = false)
    (he : findEnrollment db u.id cid = none) :
    get_course db (some u) cid = .denied ∧
    (enroll_course db u cid).1 = .created ∧
    findEnrollment (enroll_course db u cid).2 u.id cid =
      some { userId := u.id, courseId := cid, progressPercentage := 0,
             completedAt := none } := by
  refine ⟨?_, ?_, ?_⟩
  · unfold get_course userIsAdmin
    simp [hc, hpriv, hadm]
  · unfold enroll_course
    simp [hc, he]
  · unfold findEnrollment
    rw [enroll_course_enrollments]
    rw [if_pos (by rw [hc, he]; rfl)]
    unfold findEnrollment at he
    rw [List.find?_append, he]
    simp [enrKey]

/-- Witness for claim C10 at a concrete database. -/
theorem claim_C10_witness :
    get_course c10db (some c10u) 30 = .denied ∧
    (enroll_course c10db c10u 30).1 = .created ∧
    findEnrollment (enroll_course c10db c10u 30).2 1 30 =
      some { userId := 1, courseId := 30, progressPercentage := 0,
             completedAt := none } :=
  claim_C10 c10db c10u 30 { id := 30, instructorId := 2, isPrivate := true }
    (by decide) (by decide) (by decide) (by decide)

end CourseConnect
